import Mathlib

/-!
Verification of the task state manager with durable local persistence and
derived-view filtering (source: `src/react_task_app.jsx`, hook
`useLocalStorage` at lines 57-72 and component `TaskManager` at lines 149-212).

Shallow embedding notes:
* A task object `{ id: Date.now(), text, completed: false }` becomes the
  structure `Task`; `Date.now()` is modelled by passing the current clock
  reading `now : Nat` as an explicit argument to `addTask`.
* JavaScript truthiness of `text.trim()` is "the trimmed string is non-empty";
  `jsTrim` models `String.prototype.trim`.
* `localStorage` holds one relevant key (`'tasks'`). Its raw content is
  modelled by `RawItem`: the key can be absent (`getItem` returns `null`),
  hold a string that `JSON.parse` rejects (`unparseable`), or hold a string
  that `JSON.parse` decodes to some value (`parsed v`).  Decoded JavaScript
  values are modelled by `JVal`; `JSON.stringify` followed by `JSON.parse` is
  the identity on the values involved, so a successful write stores
  `RawItem.parsed v` directly.
* `localStorage.setItem` can throw (quota exceeded / store unavailable); the
  flag `writeOk` says whether the underlying store accepts the write.  The
  persistence effect at lines 67-69 has no `try`/`catch`, so a failing write
  is modelled as `Except.error ()` escaping `save`.
* React state updates: `setTasks` replaces the state, then the `useEffect`
  at lines 67-69 re-runs and writes the new value.  A mutating operation is
  modelled as one step on `ManagerState` comprising the state update and the
  subsequent effect flush; `raised` records that an exception escaped the
  effect.
-/

namespace TaskApp

/-- Model of JavaScript `String.prototype.trim`: drop leading and trailing
whitespace characters.  (`Char.isWhitespace` covers the whitespace characters
relevant to the claims: space, tab, carriage return, newline.) -/
def jsTrim (s : String) : String :=
  String.mk (((s.data.dropWhile Char.isWhitespace).reverse.dropWhile Char.isWhitespace).reverse)

/-- A task object as created at line 156: `{ id: Date.now(), text, completed: false }`. -/
structure Task where
  id : Nat
  text : String
  completed : Bool
deriving DecidableEq, Repr

/-- The filter state of `TaskManager` (line 152): one of the strings
`'All' | 'Active' | 'Completed'`; `setFilter` only ever stores these three. -/
inductive Filter where
  | All
  | Active
  | Completed
deriving DecidableEq, Repr

/-- A decoded JavaScript value, as produced by `JSON.parse` (line 61): the
expected shape is an array of task objects; any other shape (string, number,
boolean, null) is also possible since the hook performs no shape validation. -/
inductive JVal where
  | arr (ts : List Task)
  | str (s : String)
  | num (n : Int)
  | bool (b : Bool)
  | null
deriving DecidableEq, Repr

/-- The raw content of the store under the tasks key:
`absent` — `localStorage.getItem` returns `null` (line 60-61 falsy branch);
`unparseable s` — a raw string on which `JSON.parse` throws (caught at 62);
`parsed v` — a raw string that `JSON.parse` decodes to `v`. -/
inductive RawItem where
  | absent
  | unparseable (s : String)
  | parsed (v : JVal)
deriving DecidableEq, Repr

/-- Lines 58-65 of `useLocalStorage`: read the raw item; if it is absent
return `initialValue`; if `JSON.parse` throws, the `catch` returns
`initialValue`; otherwise return whatever `JSON.parse` produced, with no
shape check. -/
def load (item : RawItem) (initialValue : JVal) : JVal :=
  match item with
  | .absent => initialValue
  | .unparseable _ => initialValue
  | .parsed v => v

/-- Hydration of `TaskManager` (line 150): `useLocalStorage('tasks', [])`. -/
def hydratedValue (raw : RawItem) : JVal :=
  load raw (JVal.arr [])

/-- Lines 67-69 of `useLocalStorage`: `localStorage.setItem(key,
JSON.stringify(storedValue))` with no `try`/`catch`.  When the backing store
accepts the write (`writeOk`), the key now holds the encoding of `v`;
otherwise `setItem` throws and the exception propagates (`Except.error`). -/
def save (writeOk : Bool) (v : JVal) : Except Unit RawItem :=
  if writeOk then .ok (.parsed v) else .error ()

/-- In-memory manager state: the `tasks` state value, the store content under
the tasks key, and whether an exception has escaped the persistence effect. -/
structure ManagerState where
  tasks : List Task
  raw : RawItem
  raised : Bool
deriving DecidableEq, Repr

/-- One flush of the persistence effect (lines 67-69) after `tasks` changed:
on success the store holds the encoding of the whole sequence; on failure the
store keeps its previous value and the exception escapes uncaught. -/
def runEffect (writeOk : Bool) (s : ManagerState) : ManagerState :=
  match save writeOk (JVal.arr s.tasks) with
  | .ok raw => { s with raw := raw }
  | .error _ => { s with raised := true }

/-- Lines 154-159, list level: `if (text.trim()) setTasks([...tasks,
{ id: Date.now(), text, completed: false }])`.  Note the stored `text` is the
original, untrimmed input; `trim` is only used for the acceptance check. -/
def addTaskList (now : Nat) (text : String) (tasks : List Task) : List Task :=
  if jsTrim text ≠ "" then tasks ++ [{ id := now, text := text, completed := false }] else tasks

/-- Lines 161-163, list level:
`tasks.map(t => t.id === id ? { ...t, completed: !t.completed } : t)`. -/
def toggleTaskList (id : Nat) (tasks : List Task) : List Task :=
  tasks.map fun t => if t.id = id then { t with completed := !t.completed } else t

/-- Lines 165-167, list level: `tasks.filter(t => t.id !== id)`. -/
def deleteTaskList (id : Nat) (tasks : List Task) : List Task :=
  tasks.filter fun t => t.id ≠ id

/-- Lines 169-171: `tasks.filter(t => filter === 'All' ? true :
filter === 'Active' ? !t.completed : t.completed)`. -/
def filteredTasks (filter : Filter) (tasks : List Task) : List Task :=
  tasks.filter fun t =>
    match filter with
    | .All => true
    | .Active => !t.completed
    | .Completed => t.completed

/-- Full `addTask` step (lines 154-159): when the trimmed text is non-empty,
the state update appends the new task and the persistence effect then runs;
when it is empty, `setTasks` is never called, so no re-render and no write. -/
def stepAdd (writeOk : Bool) (now : Nat) (text : String) (s : ManagerState) : ManagerState :=
  if jsTrim text ≠ "" then
    runEffect writeOk { s with tasks := s.tasks ++ [{ id := now, text := text, completed := false }] }
  else s

/-- Full `toggleTask` step (lines 161-163): `setTasks` always runs (a fresh
array), so the effect always flushes. -/
def stepToggle (writeOk : Bool) (id : Nat) (s : ManagerState) : ManagerState :=
  runEffect writeOk { s with tasks := toggleTaskList id s.tasks }

/-- Full `deleteTask` step (lines 165-167): `setTasks` always runs, so the
effect always flushes. -/
def stepDelete (writeOk : Bool) (id : Nat) (s : ManagerState) : ManagerState :=
  runEffect writeOk { s with tasks := deleteTaskList id s.tasks }

/-- A sequence of `addTask` calls, each tagged with its `Date.now()` reading. -/
def runAdds (calls : List (Nat × String)) (tasks : List Task) : List Task :=
  calls.foldl (fun ts c => addTaskList c.1 c.2 ts) tasks

/-- The write-through invariant: the store holds the encoding of the current
in-memory sequence. -/
def persisted (s : ManagerState) : Prop :=
  s.raw = RawItem.parsed (JVal.arr s.tasks)

/-- Normal form of a run of `addTask` calls: the accepted calls (non-empty
trimmed text) are appended in order, each with its clock reading as id and
its untrimmed text. -/
theorem runAdds_eq (calls : List (Nat × String)) (ts : List Task) :
    runAdds calls ts =
      ts ++ (calls.filter fun c => jsTrim c.2 ≠ "").map
        (fun c => { id := c.1, text := c.2, completed := false }) := by
  induction calls generalizing ts with
  | nil => simp [runAdds]
  | cons c cs ih =>
    by_cases h : jsTrim c.2 = ""
    · simp [runAdds, addTaskList, h, List.filter_cons] at ih ⊢
      exact ih ts
    · simp [runAdds, addTaskList, h, List.filter_cons] at ih ⊢
      rw [ih]
      simp

/-- C1 counterexample: the claim says every newly created task receives a
fresh unique id, monotone even for rapid successive calls, with a counter
fallback if two calls could collide.  The code uses `Date.now()` with no
fallback (line 156): two `addTask` calls within the same millisecond (both
read clock value 5 here) issue the same id twice, so the ids in the
collection are not pairwise distinct. -/
theorem addTask_same_tick_id_collision :
    ((runAdds [(5, "a"), (5, "b")] []).map Task.id) = [5, 5] ∧
      ¬ ((runAdds [(5, "a"), (5, "b")] []).map Task.id).Nodup := by
  constructor <;> decide

/-- C1 (amended): each accepted `addTask` call issues `Date.now()` as the new
task's id, with no counter fallback; therefore, PROVIDED the clock readings of
successive calls are strictly increasing (no two calls in the same
millisecond), the issued ids are strictly increasing — each fresh id is
strictly greater than every previously issued one — hence pairwise distinct,
and the collection length equals the number of calls with non-empty trimmed
text.  Same-millisecond calls collide (see the counterexample). -/
theorem addTask_ids_strictMono (calls : List (Nat × String))
    (h : (calls.map Prod.fst).Pairwise (· < ·)) :
    ((runAdds calls []).map Task.id).Pairwise (· < ·) ∧
      ((runAdds calls []).map Task.id).Nodup ∧
      (runAdds calls []).length = (calls.filter fun c => jsTrim c.2 ≠ "").length := by
  have hnf := runAdds_eq calls []
  have hid : (runAdds calls []).map Task.id =
      (calls.filter fun c => jsTrim c.2 ≠ "").map Prod.fst := by
    rw [hnf]
    simp [List.map_map]
  have hsub : ((calls.filter fun c => jsTrim c.2 ≠ "").map Prod.fst).Sublist
      (calls.map Prod.fst) :=
    (List.filter_sublist calls).map Prod.fst
  have hpw : ((runAdds calls []).map Task.id).Pairwise (· < ·) := by
    rw [hid]
    exact List.Pairwise.sublist hsub h
  refine ⟨hpw, hpw.imp (fun hlt => Nat.ne_of_lt hlt), ?_⟩
  rw [hnf]
  simp

/-- Witness for the amended C1: two calls at distinct clock readings 1 and 2
produce pairwise-distinct ids. -/
theorem addTask_ids_strictMono_witness :
    ((runAdds [(1, "a"), (2, "b")] []).map Task.id).Nodup :=
  (addTask_ids_strictMono [(1, "a"), (2, "b")] (by decide)).2.1

/-- C3 counterexample: the claim says the stored text is the input with
leading/trailing whitespace trimmed.  On the code (line 156) the object is
built with the ORIGINAL `text`, the trim being used only in the acceptance
check, so `addTask("  buy milk  ")` stores `"  buy milk  "`, not
`"buy milk"`. -/
theorem addTask_keeps_whitespace :
    addTaskList 7 "  buy milk  " [] =
      [{ id := 7, text := "  buy milk  ", completed := false }] ∧
      jsTrim "  buy milk  " = "buy milk" ∧
      (addTaskList 7 "  buy milk  " []).map Task.text ≠ ["buy milk"] := by
  refine ⟨by decide, by decide, by decide⟩

/-- C3 (amended): when the trimmed input is non-empty, `addTask` appends a
task whose text is the UNTRIMMED original input; consequently every task in a
collection built this way has text whose trimmed form is non-empty, but the
stored text may retain leading/trailing whitespace. -/
theorem addTask_appends_untrimmed (now : Nat) (text : String) (ts : List Task)
    (h : jsTrim text ≠ "") (hts : ∀ t ∈ ts, jsTrim t.text ≠ "") :
    addTaskList now text ts = ts ++ [{ id := now, text := text, completed := false }] ∧
      ∀ t ∈ addTaskList now text ts, jsTrim t.text ≠ "" := by
  constructor
  · simp [addTaskList, h]
  · intro t ht
    simp only [addTaskList, if_pos h, List.mem_append, List.mem_singleton] at ht
    rcases ht with ht | rfl
    · exact hts t ht
    · exact h

/-- Witness for the amended C3 at the concrete input `" a "`. -/
theorem addTask_appends_untrimmed_witness :
    addTaskList 1 " a " [] = [{ id := 1, text := " a ", completed := false }] :=
  (addTask_appends_untrimmed 1 " a " [] (by decide) (by simp)).1

/-- C5: write-through — after each mutating step with a functioning store
(`writeOk = true`), the store holds the encoding of the entire current
in-memory task sequence, whatever it held before: `addTask` with non-empty
trimmed input, `toggleTask` and `deleteTask` all re-establish the
`persisted` invariant, so store and memory do not diverge in a session of
successful writes.  (A mutating operation is modelled together with its
persistence-effect flush, which React runs before any further event.) -/
theorem write_through_invariant (s : ManagerState) (now : Nat) (text : String)
    (i j : Nat) (h : jsTrim text ≠ "") :
    persisted (stepAdd true now text s) ∧
      persisted (stepToggle true i s) ∧
      persisted (stepDelete true j s) := by
  refine ⟨?_, ?_, ?_⟩ <;>
    simp [stepAdd, stepToggle, stepDelete, runEffect, save, persisted, h]

/-- Witness for C5 at a concrete state and input. -/
theorem write_through_invariant_witness :
    persisted (stepAdd true 1 "a" { tasks := [], raw := RawItem.absent, raised := false }) :=
  (write_through_invariant { tasks := [], raw := RawItem.absent, raised := false }
    1 "a" 0 0 (by decide)).1

/-- C2 counterexample: the claim says `load` returns the caller-supplied
default whenever decoding fails for any reason, including a decoded value of
unexpected shape, so a store holding a JSON string instead of a list hydrates
to the empty collection.  On the code, a raw value `'"oops"'` is valid JSON:
`JSON.parse` succeeds with the string `"oops"`, which `load` returns as-is —
the fresh manager does not hydrate to the empty collection. -/
theorem load_wrong_shape_not_default :
    hydratedValue (RawItem.parsed (JVal.str "oops")) = JVal.str "oops" ∧
      hydratedValue (RawItem.parsed (JVal.str "oops")) ≠ JVal.arr [] := by
  constructor
  · rfl
  · decide

/-- C2 (amended): `load` returns the default exactly when the key is absent or
`JSON.parse` throws (malformed encoding); it never raises.  A successfully
decoded value is returned unchanged whatever its shape — there is no shape
validation, so only an unparseable or absent store value makes a fresh
manager hydrate to the empty collection. -/
theorem load_default_on_absent_or_unparseable (s : String) (v d : JVal) :
    load RawItem.absent d = d ∧
      load (RawItem.unparseable s) d = d ∧
      load (RawItem.parsed v) d = v ∧
      hydratedValue (RawItem.unparseable s) = JVal.arr [] ∧
      hydratedValue RawItem.absent = JVal.arr [] := by
  refine ⟨rfl, rfl, rfl, rfl, rfl⟩

/-- C4 counterexample: the claim says a write failure of the backing store is
swallowed as a silent no-op and never raised.  The persistence effect at
lines 67-69 has no `try`/`catch`, so when `setItem` throws the exception
propagates to the caller: `save` returns an error, not a success. -/
theorem save_write_failure_raises :
    save false (JVal.arr []) = Except.error () ∧
      ∀ raw : RawItem, save false (JVal.arr []) ≠ Except.ok raw := by
  constructor
  · rfl
  · intro raw h
    simp [save] at h

/-- C4 (amended): a write failure is NOT swallowed — the `setItem` exception
escapes the persistence effect uncaught (`save` errors exactly when the store
rejects the write).  The in-memory sequence still reflects the mutation,
because the state update precedes the effect, and the store keeps its
previous value. -/
theorem write_failure_propagates (s : ManagerState) (id : Nat) (v : JVal) :
    save false v = Except.error () ∧
      save true v = Except.ok (RawItem.parsed v) ∧
      (stepToggle false id s).tasks = toggleTaskList id s.tasks ∧
      (stepToggle false id s).raw = s.raw ∧
      (stepToggle false id s).raised = true ∧
      (stepDelete false id s).tasks = deleteTaskList id s.tasks ∧
      (stepDelete false id s).raw = s.raw ∧
      (stepDelete false id s).raised = true := by
  refine ⟨rfl, rfl, ?_, ?_, ?_, ?_, ?_, ?_⟩ <;>
    simp [stepToggle, stepDelete, runEffect, save]

/-- C6: the filtered view under `Active` is exactly the subsequence of tasks
with `completed = false` in original order, under `Completed` exactly those
with `completed = true`, and under `All` the full sequence unchanged; every
view is a subsequence of the collection (insertion order preserved). -/
theorem filteredTasks_spec (f : Filter) (ts : List Task) :
    filteredTasks Filter.All ts = ts ∧
      filteredTasks Filter.Active ts = ts.filter (fun t => t.completed = false) ∧
      filteredTasks Filter.Completed ts = ts.filter (fun t => t.completed = true) ∧
      (filteredTasks f ts).Sublist ts := by
  refine ⟨?_, ?_, ?_, List.filter_sublist ts⟩
  · simp [filteredTasks]
  · simp only [filteredTasks]
    congr 1
    funext t
    cases t.completed <;> rfl
  · simp only [filteredTasks]
    congr 1
    funext t
    cases t.completed <;> rfl

/-- Helper: toggling the same id twice is the identity on the list. -/
theorem toggleTaskList_involutive (id : Nat) (ts : List Task) :
    toggleTaskList id (toggleTaskList id ts) = ts := by
  unfold toggleTaskList
  rw [List.map_map]
  conv_rhs => rw [show ts = ts.map (fun t => t) from (List.map_id ts).symm]
  apply List.map_congr_left
  intro t _
  cases t with
  | mk tid ttext tcomp =>
    by_cases h : tid = id <;> simp [Function.comp, h]

/-- Helper: toggling an id no task carries leaves the list unchanged. -/
theorem toggleTaskList_not_mem (id : Nat) (ts : List Task)
    (h : ∀ t ∈ ts, t.id ≠ id) :
    toggleTaskList id ts = ts := by
  unfold toggleTaskList
  conv_rhs => rw [show ts = ts.map (fun t => t) from (List.map_id ts).symm]
  apply List.map_congr_left
  intro t ht
  simp [h t ht]

/-- Helper: deletion removes exactly as many tasks as carry the id. -/
theorem deleteTaskList_length (id : Nat) (ts : List Task) :
    (deleteTaskList id ts).length + ts.countP (fun t => t.id = id) = ts.length := by
  induction ts with
  | nil => rfl
  | cons t ts ih =>
    simp only [deleteTaskList, List.filter_cons, List.countP_cons] at ih ⊢
    by_cases h : t.id = id <;> simp [h] at ih ⊢ <;> omega

/-- C7: `toggleTask(id)` maps the collection pointwise — the task at each
position keeps its position, id and text, and its `completed` flag is negated
exactly when its id matches; length is preserved; toggling twice restores the
original collection; toggling an id that no task carries is a no-op with no
error. -/
theorem toggleTask_spec (id : Nat) (ts : List Task) :
    (∀ i : Nat, (toggleTaskList id ts)[i]? =
        (ts[i]?).map fun t =>
          if t.id = id then { t with completed := !t.completed } else t) ∧
      (toggleTaskList id ts).length = ts.length ∧
      toggleTaskList id (toggleTaskList id ts) = ts ∧
      ((∀ t ∈ ts, t.id ≠ id) → toggleTaskList id ts = ts) := by
  refine ⟨?_, ?_, toggleTaskList_involutive id ts, toggleTaskList_not_mem id ts⟩
  · intro i
    simp [toggleTaskList, List.getElem?_map]
  · simp [toggleTaskList]

/-- Witness for C7: toggling an absent id on a concrete collection is a
no-op. -/
theorem toggleTask_spec_witness :
    toggleTaskList 9 [{ id := 1, text := "a", completed := false }] =
      [{ id := 1, text := "a", completed := false }] :=
  (toggleTask_spec 9 [{ id := 1, text := "a", completed := false }]).2.2.2 (by decide)

/-- C8 counterexample: the claim says that for every collection containing a
task with the given id, `deleteTask(id)` decreases the length by exactly one.
Duplicate ids are reachable (see the C1 counterexample), and on a collection
holding two tasks with id 1, `deleteTask(1)` removes both: the length drops
from 2 to 0, not by one. -/
theorem deleteTask_duplicate_ids_cex :
    (deleteTaskList 1 [{ id := 1, text := "a", completed := false },
        { id := 1, text := "b", completed := false }]).length + 1 ≠
      ([{ id := 1, text := "a", completed := false },
        { id := 1, text := "b", completed := false }] : List Task).length ∧
      deleteTaskList 1 [{ id := 1, text := "a", completed := false },
        { id := 1, text := "b", completed := false }] = [] := by
  constructor <;> decide

/-- C8 (amended): `deleteTask(id)` removes every task carrying `id`,
preserving the relative order of the rest (the result is a subsequence of the
original); when EXACTLY ONE task carries the id, the length decreases by
exactly one; deleting again with the same id is a no-op, as is deleting an id
no task carries — no error in any case. -/
theorem deleteTask_spec (id : Nat) (ts : List Task) :
    (deleteTaskList id ts).Sublist ts ∧
      (∀ t ∈ deleteTaskList id ts, t.id ≠ id) ∧
      deleteTaskList id (deleteTaskList id ts) = deleteTaskList id ts ∧
      ((∀ t ∈ ts, t.id ≠ id) → deleteTaskList id ts = ts) ∧
      (ts.countP (fun t => t.id = id) = 1 →
        (deleteTaskList id ts).length + 1 = ts.length) := by
  refine ⟨List.filter_sublist ts, ?_, ?_, ?_, ?_⟩
  · intro t ht
    simpa using List.of_mem_filter ht
  · unfold deleteTaskList
    rw [List.filter_filter]
    congr 1
    funext t
    by_cases h : t.id = id <;> simp [h]
  · intro h
    unfold deleteTaskList
    rw [List.filter_eq_self]
    intro t ht
    simpa using h t ht
  · intro hc
    have hlen := deleteTaskList_length id ts
    rw [hc] at hlen
    exact hlen

/-- Witness for the amended C8 on a concrete collection where exactly one
task carries the deleted id. -/
theorem deleteTask_spec_witness :
    (deleteTaskList 1 [{ id := 1, text := "a", completed := false },
        { id := 2, text := "b", completed := false }]).length + 1 =
      ([{ id := 1, text := "a", completed := false },
        { id := 2, text := "b", completed := false }] : List Task).length :=
  (deleteTask_spec 1 [{ id := 1, text := "a", completed := false },
    { id := 2, text := "b", completed := false }]).2.2.2.2 (by decide)

/-- C10: with duplicate ids in the collection (two or more tasks sharing the
id), a single `deleteTask(id)` removes ALL of them — the length drops by the
full multiplicity, which is at least two — and a single `toggleTask(id)`
negates the `completed` flag of every task carrying the id. -/
theorem duplicate_id_bulk_ops (id : Nat) (ts : List Task)
    (h : 2 ≤ ts.countP (fun t => t.id = id)) :
    (∀ t ∈ deleteTaskList id ts, t.id ≠ id) ∧
      (deleteTaskList id ts).length + ts.countP (fun t => t.id = id) = ts.length ∧
      2 ≤ ts.length - (deleteTaskList id ts).length ∧
      (∀ t ∈ ts, t.id = id →
        ({ id := t.id, text := t.text, completed := !t.completed } : Task) ∈
          toggleTaskList id ts) := by
  have hlen := deleteTaskList_length id ts
  refine ⟨?_, hlen, by omega, ?_⟩
  · intro t ht
    simpa using List.of_mem_filter ht
  · intro t ht htid
    have hmem : (if t.id = id then ({ t with completed := !t.completed } : Task) else t) ∈
        toggleTaskList id ts :=
      List.mem_map_of_mem _ ht
    rw [if_pos htid] at hmem
    exact hmem

/-- Witness for C10 on a concrete collection with two tasks sharing id 1:
deleting id 1 shrinks the collection by two. -/
theorem duplicate_id_bulk_ops_witness :
    2 ≤ ([{ id := 1, text := "a", completed := false },
        { id := 1, text := "b", completed := false }] : List Task).length -
      (deleteTaskList 1 [{ id := 1, text := "a", completed := false },
        { id := 1, text := "b", completed := false }]).length :=
  (duplicate_id_bulk_ops 1 [{ id := 1, text := "a", completed := false },
    { id := 1, text := "b", completed := false }] (by decide)).2.2.1

/-- C9: a call with empty or whitespace-only text is a silent no-op — the
truthiness check `if (text.trim())` fails, `setTasks` is never called, so the
collection, the store and the error status are all unchanged. -/
theorem addTask_blank_noop (writeOk : Bool) (now : Nat) (text : String)
    (s : ManagerState) (h : jsTrim text = "") :
    stepAdd writeOk now text s = s ∧ addTaskList now text s.tasks = s.tasks := by
  constructor
  · simp [stepAdd, h]
  · simp [addTaskList, h]

/-- Witness for C9 at the concrete whitespace-only input `"   "`. -/
theorem addTask_blank_noop_witness :
    stepAdd true 1 "   " { tasks := [], raw := RawItem.absent, raised := false } =
      { tasks := [], raw := RawItem.absent, raised := false } :=
  (addTask_blank_noop true 1 "   "
    { tasks := [], raw := RawItem.absent, raised := false } (by decide)).1

end TaskApp
